import Mathlib

/-
  Verification of the sorterpy SDK (src/src/sorterpy/sorterpy.py) against its
  natural-language specification.

  The Python client is shallowly embedded: its pure option bookkeeping,
  magnitude-scale conversion, vote validation and payload construction,
  HTTP error normalization, rankings parsing and item deduplication are
  translated into executable Lean definitions.  Python exceptions become
  `Except` errors; an HTTP request that would be issued is represented by the
  payload value an operation returns in its `.ok` case, so `.error` means the
  operation raised before any network call.  Server-assigned ids are modelled
  as integers.
-/

namespace Sorterpy

/-- A dynamically typed option value, as stored in the Python options dict
(strings such as "equal"/"positive", booleans, and ints). -/
inductive OptVal where
  | str (s : String)
  | bool (b : Bool)
  | int (n : Int)
deriving DecidableEq, Repr

/-- Python truthiness of an option value (used by `if not self._options[...]`). -/
def OptVal.truthy : OptVal → Bool
  | .str s => decide (s ≠ "")
  | .bool b => b
  | .int n => decide (n ≠ 0)

/-- The client option set as initialized by `Sorter.__init__`
(the five keys of `self._options`). -/
structure Options where
  vote_magnitude : OptVal
  verbose : OptVal
  quiet : OptVal
  compatibility_warnings : OptVal
  debug_http_full : OptVal
deriving DecidableEq, Repr

/-- The default option values from `Sorter.__init__`. -/
def defaultOptions : Options :=
  { vote_magnitude := OptVal.str "equal"
    verbose := OptVal.bool false
    quiet := OptVal.bool false
    compatibility_warnings := OptVal.bool true
    debug_http_full := OptVal.bool false }

/-- Python exception kinds raised by the SDK (plus the httpx status error that
`_request` re-raises). -/
inductive PyError where
  | typeError (msg : String)
  | valueError (msg : String)
  | httpStatusError (status : Nat) (msg : String)
  | requestError (msg : String)
  | jsonDecodeError (msg : String)
deriving DecidableEq, Repr

/-- The message carried by an exception. -/
def PyError.message : PyError → String
  | .typeError m => m
  | .valueError m => m
  | .httpStatusError _ m => m
  | .requestError m => m
  | .jsonDecodeError m => m

/-- `Sorter._convert_magnitude_to_backend`: client scale to backend scale.
The Python code tests `self._options["vote_magnitude"] == "equal"`. -/
def Sorter.convertMagnitudeToBackend (opts : Options) (magnitude : Int) : Int :=
  if opts.vote_magnitude = OptVal.str "equal" then magnitude + 50 else magnitude

/-- `Sorter._convert_magnitude_from_backend`: backend scale to client scale. -/
def Sorter.convertMagnitudeFromBackend (opts : Options) (magnitude : Int) : Int :=
  if opts.vote_magnitude = OptVal.str "equal" then magnitude - 50 else magnitude

/-- Whether a magnitude is in range for the active scale: [-50, 50] when the
`vote_magnitude` option equals "equal", [0, 100] otherwise ("positive").
This mirrors the range checks in `Sorter.vote` and `Tag.vote`. -/
def magnitudeInRange (opts : Options) (m : Int) : Bool :=
  if opts.vote_magnitude = OptVal.str "equal" then decide (-50 ≤ m ∧ m ≤ 50)
  else decide (0 ≤ m ∧ m ≤ 100)

/-- A tag, keeping the field consulted by vote validation (`self.id`). -/
structure Tag where
  id : Int
deriving DecidableEq, Repr

/-- An item, keeping the fields consulted by voting: its id, title, and the id
of the tag it was constructed under (`item.tag.id`). -/
structure Item where
  id : Int
  title : String
  tagId : Int
deriving DecidableEq, Repr

/-- An attribute, keeping the field consulted by voting (`self.id`). -/
structure Attribute where
  id : Int
deriving DecidableEq, Repr

/-- The `Union[int, "Item"]` type of the second and third vote arguments. -/
inductive MagOrItem where
  | int (m : Int)
  | item (it : Item)
deriving DecidableEq, Repr

/-- The `Union[int, "Attribute"]` type of the optional attribute argument. -/
inductive AttrArg where
  | attr (a : Attribute)
  | int (i : Int)
deriving DecidableEq, Repr

/-- The JSON body POSTed to /api/vote. -/
structure VotePayload where
  left_item_id : Int
  right_item_id : Int
  magnitude : Int
  tag_id : Int
  attribute_ : Int
deriving DecidableEq, Repr

/-- The attribute-id resolution shared by `Sorter.vote` and `Tag.vote`:
None becomes 0, an Attribute contributes its id, an int is used directly. -/
def attributeId : Option AttrArg → Int
  | none => 0
  | some (.attr a) => a.id
  | some (.int i) => i

/-- The body of `Tag.vote` after the parameter order has been determined:
validates that both items belong to this tag, validates the magnitude for the
active scale, converts it to the backend scale, resolves the attribute id and
builds the request payload.  `.ok` carries the payload of the HTTP request the
method would now issue; `.error` means it raised before any request. -/
def Tag.voteChecked (tag : Tag) (opts : Options) (left_item : Item)
    (magnitude : Int) (right_item : Item) (attributeArg : Option AttrArg) :
    Except PyError VotePayload :=
  if left_item.tagId ≠ tag.id ∨ right_item.tagId ≠ tag.id then
    .error (.valueError "Both items must belong to this tag.")
  else if opts.vote_magnitude = OptVal.str "equal" then
    if ¬ (-50 ≤ magnitude ∧ magnitude ≤ 50) then
      .error (.valueError "Magnitude must be between -50 and 50.")
    else
      .ok { left_item_id := left_item.id
            right_item_id := right_item.id
            magnitude := Sorter.convertMagnitudeToBackend opts magnitude
            tag_id := tag.id
            attribute_ := attributeId attributeArg }
  else
    if ¬ (0 ≤ magnitude ∧ magnitude ≤ 100) then
      .error (.valueError "Magnitude must be between 0 and 100.")
    else
      .ok { left_item_id := left_item.id
            right_item_id := right_item.id
            magnitude := magnitude
            tag_id := tag.id
            attribute_ := attributeId attributeArg }

/-- `Tag.vote`: dispatches on the runtime types of the second and third
arguments, accepting (int, Item) as (magnitude, right_item) and (Item, int) as
(right_item, magnitude); any other combination raises TypeError. -/
def Tag.vote (tag : Tag) (opts : Options) (left_item : Item)
    (arg2 arg3 : MagOrItem) (attributeArg : Option AttrArg) :
    Except PyError VotePayload :=
  match arg2, arg3 with
  | .int magnitude, .item right_item =>
      Tag.voteChecked tag opts left_item magnitude right_item attributeArg
  | .item right_item, .int magnitude =>
      Tag.voteChecked tag opts left_item magnitude right_item attributeArg
  | _, _ =>
      .error (.typeError
        "Invalid parameter types. Expected either (Item, int, Item) or (Item, Item, int).")

/-- The body of `Sorter.vote` after the parameter order has been determined:
validates that both items belong to the same tag, then proceeds like
`Tag.vote` with the left item's tag. -/
def Sorter.voteChecked (opts : Options) (left_item : Item)
    (magnitude : Int) (right_item : Item) (attributeArg : Option AttrArg) :
    Except PyError VotePayload :=
  if left_item.tagId ≠ right_item.tagId then
    .error (.valueError "Both items must belong to the same tag")
  else if opts.vote_magnitude = OptVal.str "equal" then
    if ¬ (-50 ≤ magnitude ∧ magnitude ≤ 50) then
      .error (.valueError "Magnitude must be between -50 and 50.")
    else
      .ok { left_item_id := left_item.id
            right_item_id := right_item.id
            magnitude := Sorter.convertMagnitudeToBackend opts magnitude
            tag_id := left_item.tagId
            attribute_ := attributeId attributeArg }
  else
    if ¬ (0 ≤ magnitude ∧ magnitude ≤ 100) then
      .error (.valueError "Magnitude must be between 0 and 100.")
    else
      .ok { left_item_id := left_item.id
            right_item_id := right_item.id
            magnitude := magnitude
            tag_id := left_item.tagId
            attribute_ := attributeId attributeArg }

/-- `Sorter.vote`: same double argument-order dispatch as `Tag.vote`. -/
def Sorter.vote (opts : Options) (left_item : Item)
    (arg2 arg3 : MagOrItem) (attributeArg : Option AttrArg) :
    Except PyError VotePayload :=
  match arg2, arg3 with
  | .int magnitude, .item right_item =>
      Sorter.voteChecked opts left_item magnitude right_item attributeArg
  | .item right_item, .int magnitude =>
      Sorter.voteChecked opts left_item magnitude right_item attributeArg
  | _, _ =>
      .error (.typeError
        "Invalid parameter types. Expected either (Item, int, Item) or (Item, Item, int).")

/-- The fields of the /api/vote response consumed by `Vote.__init__`. -/
structure VoteData where
  id : Int
  left_item_id : Int
  right_item_id : Int
  magnitude : Int
  attribute_ : Int
deriving DecidableEq, Repr

/-- A `Vote` object: `Vote.__init__` converts the backend magnitude back to
the client scale. -/
structure Vote where
  id : Int
  left_item_id : Int
  right_item_id : Int
  magnitude : Int
  attribute_ : Int
deriving DecidableEq, Repr

/-- `Vote.__init__` applied to a response. -/
def mkVote (opts : Options) (d : VoteData) : Vote :=
  { id := d.id
    left_item_id := d.left_item_id
    right_item_id := d.right_item_id
    magnitude := Sorter.convertMagnitudeFromBackend opts d.magnitude
    attribute_ := d.attribute_ }

/-- `Tag.vote` followed by `Vote(self, response)`, where `respond` is the
server's (arbitrary) response to the POSTed payload. -/
def Tag.voteResult (tag : Tag) (opts : Options) (respond : VotePayload → VoteData)
    (left_item : Item) (arg2 arg3 : MagOrItem) (attributeArg : Option AttrArg) :
    Except PyError Vote :=
  (Tag.vote tag opts left_item arg2 arg3 attributeArg).map fun p => mkVote opts (respond p)

/-- An HTTP response as seen by `Sorter._request` (status plus body text). -/
structure HttpResponse where
  status_code : Nat
  text : String
deriving DecidableEq, Repr

/-- The value `Sorter._request` returns: the parsed response body on success,
or the empty dict substituted in quiet mode after an HTTP error. -/
inductive ReqResult where
  | json (body : String)
  | emptyDict
deriving DecidableEq, Repr

/-- The error message `_request` builds for a failed response: it names the
status code, method, URL and response body. -/
def requestErrorMsg (method url : String) (resp : HttpResponse) : String :=
  "HTTP Error: " ++ toString resp.status_code ++ " for " ++ method ++ " " ++ url
    ++ " - " ++ resp.text

/-- A message emitted through the logger. -/
inductive LogLevel where
  | debug
  | info
  | warning
  | error
deriving DecidableEq, Repr

structure LogMsg where
  level : LogLevel
  msg : String
deriving DecidableEq, Repr

/-- `Sorter._request` error handling: `response.raise_for_status()` raises
exactly on a non-2xx status; the handler logs the error message and then
re-raises unless the quiet option is truthy, in which case it returns the
empty dict.  Returns the result together with the error-level log lines. -/
def Sorter.request (opts : Options) (method url : String) (resp : HttpResponse) :
    Except PyError ReqResult × List LogMsg :=
  if 200 ≤ resp.status_code ∧ resp.status_code < 300 then
    (.ok (.json resp.text), [])
  else
    let errorMsg := requestErrorMsg method url resp
    if ¬ (opts.quiet).truthy then
      (.error (.httpStatusError resp.status_code errorMsg), [⟨.error, errorMsg⟩])
    else
      (.ok .emptyDict, [⟨.error, errorMsg⟩])

/-- The fields of an item object in a rankings response that `Item.__init__`
consumes (beyond the tag it is attached to). -/
structure ItemData where
  id : Int
  title : String
deriving DecidableEq, Repr

/-- `Item(tag, data)`: the constructed item records the tag it belongs to. -/
def mkItem (tag : Tag) (d : ItemData) : Item :=
  { id := d.id, title := d.title, tagId := tag.id }

/-- The /api/tag/page response fields that the claims about `Rankings`
consume: the sorted, unsorted, skipped and pair item lists. -/
structure RankingsData where
  sorted : List ItemData
  unsorted : List ItemData
  skipped : List ItemData
  pair : List ItemData
deriving DecidableEq, Repr

/-- A parsed `Rankings` snapshot. -/
structure Rankings where
  sortedItems : List Item
  unsortedItems : List Item
  skippedItems : List Item
  pairItems : List Item
deriving DecidableEq, Repr

/-- `Rankings.__init__`: parses the item lists and, when the voting pair has a
length other than 0 or 2, logs a warning — it never raises, so the result is
always `.ok` (the `Except` return type records that parsing is fallible in
principle, e.g. a raise would surface here). -/
def Rankings.init (tag : Tag) (data : RankingsData) :
    Except PyError (Rankings × List LogMsg) :=
  let r : Rankings :=
    { sortedItems := data.sorted.map (mkItem tag)
      unsortedItems := data.unsorted.map (mkItem tag)
      skippedItems := data.skipped.map (mkItem tag)
      pairItems := data.pair.map (mkItem tag) }
  let warns : List LogMsg :=
    if r.pairItems.length ≠ 2 ∧ r.pairItems.length ≠ 0 then
      [⟨.warning,
        "Expected 2 items in voting pair, got " ++ toString r.pairItems.length⟩]
    else []
  .ok (r, warns)

/-- `Rankings.pair`: raises ValueError unless the snapshot holds exactly two
pair items, and then returns them as (first, second). -/
def Rankings.pair (r : Rankings) : Except PyError (Item × Item) :=
  match r.pairItems with
  | [a, b] => .ok (a, b)
  | _ => .error (.valueError "No voting pair available")

/-- In-place insert-or-replace on an association list, mirroring assignment to
a Python dict key: an existing key keeps its position but takes the new value,
a new key is appended. -/
def upsert : List (Int × Item) → Int → Item → List (Int × Item)
  | [], k, v => [(k, v)]
  | (k', v') :: rest, k, v =>
      if k' = k then (k, v) :: rest else (k', v') :: upsert rest k v

/-- The dict comprehension in `Tag.item`:
`list({item.id: item for item in all_items}.values())`. -/
def dedupById (items : List Item) : List Item :=
  (items.foldl (fun acc it => upsert acc it.id it) []).map Prod.snd

/-- `Tag.item` with `title=None`, applied to a fetched rankings snapshot:
concatenates the sorted and unsorted items and deduplicates them by item id
through a Python dict. -/
def Tag.itemNone (r : Rankings) : List Item :=
  dedupById (r.sortedItems ++ r.unsortedItems)

/-- The five option keys of `Sorter.__init__`. -/
def knownOptionKeys : List String :=
  ["vote_magnitude", "verbose", "quiet", "compatibility_warnings", "debug_http_full"]

/-- The `if key in self._options: self._options[key] = value` step of
`Sorter.options`: a known key is assigned, any other key is ignored. -/
def setOption (o : Options) (key : String) (value : OptVal) : Options :=
  if key = "vote_magnitude" then { o with vote_magnitude := value }
  else if key = "verbose" then { o with verbose := value }
  else if key = "quiet" then { o with quiet := value }
  else if key = "compatibility_warnings" then { o with compatibility_warnings := value }
  else if key = "debug_http_full" then { o with debug_http_full := value }
  else o

/-- `Sorter.options(**kwargs)`: folds the keyword arguments over the option
set and returns the pair (new stored options, returned dictionary) — the
method returns `self._options` itself after the update. -/
def Sorter.optionsCall (o : Options) (kwargs : List (String × OptVal)) :
    Options × Options :=
  let o' := kwargs.foldl (fun acc kv => setOption acc kv.1 kv.2) o
  (o', o')

/-- The leading decimal digits of a string, as matched by the regex
used in `_is_version_compatible` and `_format_version_for_display`;
none when the string does not start with a digit. -/
def leadingNat (s : String) : Option Nat :=
  let ds := s.toList.takeWhile Char.isDigit
  if ds.isEmpty then none
  else some (ds.foldl (fun n c => n * 10 + (c.toNat - 48)) 0)

/-- `_is_version_compatible`: parses up to three numeric components of the API
version (padding with zeros), then folds over the compatible-version patterns:
a 1-part pattern matching the major version marks partial compatibility, a
2- or 3-part pattern matching exactly marks full compatibility.  Returns
(fully_compatible, partially_compatible, matched_pattern). -/
def isVersionCompatible (apiVersion : String) (compatibleVersions : List String) :
    Bool × Bool × Option String :=
  let apiParts := ((apiVersion.splitOn ".").filterMap leadingNat).take 3
  let padded := apiParts ++ List.replicate (3 - apiParts.length) 0
  let apiMajor := padded.getD 0 0
  let apiMinor := padded.getD 1 0
  let apiPatch := padded.getD 2 0
  compatibleVersions.foldl
    (fun acc version =>
      let patternParts := (version.splitOn ".").filterMap leadingNat
      match patternParts with
      | [maj] =>
          if apiMajor = maj then (acc.1, true, some version) else acc
      | [maj, mino] =>
          if apiMajor = maj ∧ apiMinor = mino then (true, acc.2.1, some version) else acc
      | [maj, mino, patc] =>
          if apiMajor = maj ∧ apiMinor = mino ∧ apiPatch = patc then
            (true, acc.2.1, some version)
          else acc
      | _ => acc)
    (false, false, none)

/-- `_format_version_for_display`: "2" becomes "2.x", "2.1" becomes "2.1.x",
anything else is returned unchanged. -/
def formatVersionForDisplay (version : String) : String :=
  let parts := version.splitOn "."
  let numericParts := parts.filterMap leadingNat
  if numericParts.length = 1 then parts.headD "" ++ ".x"
  else if numericParts.length = 2 then
    parts.headD "" ++ "." ++ parts.getD 1 "" ++ ".x"
  else version

/-- The outcome of `self.client.get(base_url + "/api/health")` together with
the parse of its body: `.unreachable` when the GET itself raises; otherwise
the status code and either a JSON decoding failure or the extracted
"version" field (none when absent). -/
inductive HealthResult where
  | unreachable (msg : String)
  | response (status : Nat) (body : Except String (Option String))
deriving Repr

/-- The body of the `try` block of `Sorter._check_api_compatibility`: on a 200
response with a truthy version string it compares versions and emits one log
line — a warning on mismatch when warnings are shown, a debug line otherwise.
`.error` is any exception escaping the block (unreachable host, bad JSON). -/
def Sorter.checkApiCompatibilityInner (opts : Options)
    (compatibleVersions : List String) (health : HealthResult) :
    Except PyError (List LogMsg) :=
  match health with
  | .unreachable msg => .error (.requestError msg)
  | .response status body =>
    if status = 200 then
      match body with
      | .error m => .error (.jsonDecodeError m)
      | .ok versionField =>
        match versionField with
        | none => .ok []
        | some apiVersion =>
          if apiVersion = "" then .ok []
          else
            let res := isVersionCompatible apiVersion compatibleVersions
            let fullMatch := res.1
            let partMatch := res.2.1
            let displayVersions := compatibleVersions.map formatVersionForDisplay
            let displayBest :=
              match compatibleVersions.getLast? with
              | some v => formatVersionForDisplay v
              | none => "None"
            let showWarnings := (opts.compatibility_warnings).truthy
            if ¬ (fullMatch = true ∨ partMatch = true) then
              .ok [⟨if showWarnings then .warning else .debug,
                "Connected API version " ++ apiVersion
                  ++ " may not be compatible with this SDK. Supported versions: "
                  ++ String.intercalate ", " displayVersions⟩]
            else if partMatch = true ∧ fullMatch = false then
              .ok [⟨if showWarnings then .warning else .debug,
                "Connected API version " ++ apiVersion
                  ++ " is partially compatible with this SDK. For best experience, consider using API version "
                  ++ displayBest ++ "."⟩]
            else
              .ok [⟨.debug,
                "Connected to API version " ++ apiVersion
                  ++ ", which is compatible with this SDK"⟩]
    else .ok []

/-- `Sorter._check_api_compatibility`: returns immediately (with a debug line)
when the compatibility_warnings option is the boolean False; otherwise runs
the body and catches every exception, downgrading it to a debug log line.
The plain (exception-free) return type is the point: client construction
never fails on any health-endpoint outcome. -/
def Sorter.checkApiCompatibility (opts : Options)
    (compatibleVersions : List String) (health : HealthResult) : List LogMsg :=
  if opts.compatibility_warnings = OptVal.bool false then
    [⟨.debug, "API compatibility checking is disabled"⟩]
  else
    match Sorter.checkApiCompatibilityInner opts compatibleVersions health with
    | .ok logs => logs
    | .error e =>
        [⟨.debug, "Failed to check API version compatibility: " ++ e.message⟩]

/-! ## Helper lemmas -/

/-- An out-of-range magnitude makes `Tag.voteChecked` raise a ValueError. -/
lemma tagVoteChecked_out_of_range (tag : Tag) (opts : Options) (L R : Item)
    (m : Int) (attr : Option AttrArg) (h : magnitudeInRange opts m = false) :
    ∃ msg, Tag.voteChecked tag opts L m R attr = .error (.valueError msg) := by
  unfold Tag.voteChecked
  by_cases ht : L.tagId ≠ tag.id ∨ R.tagId ≠ tag.id
  · exact ⟨"Both items must belong to this tag.", by simp [ht]⟩
  · by_cases he : opts.vote_magnitude = OptVal.str "equal"
    · have hm : ¬ (-50 ≤ m ∧ m ≤ 50) := by
        simpa [magnitudeInRange, he] using h
      exact ⟨"Magnitude must be between -50 and 50.", by simp [ht, he, hm]⟩
    · have hm : ¬ (0 ≤ m ∧ m ≤ 100) := by
        simpa [magnitudeInRange, he] using h
      exact ⟨"Magnitude must be between 0 and 100.", by simp [ht, he, hm]⟩

/-- An out-of-range magnitude makes `Sorter.voteChecked` raise a ValueError. -/
lemma sorterVoteChecked_out_of_range (opts : Options) (L R : Item)
    (m : Int) (attr : Option AttrArg) (h : magnitudeInRange opts m = false) :
    ∃ msg, Sorter.voteChecked opts L m R attr = .error (.valueError msg) := by
  unfold Sorter.voteChecked
  by_cases ht : L.tagId ≠ R.tagId
  · exact ⟨"Both items must belong to the same tag", by simp [ht]⟩
  · by_cases he : opts.vote_magnitude = OptVal.str "equal"
    · have hm : ¬ (-50 ≤ m ∧ m ≤ 50) := by
        simpa [magnitudeInRange, he] using h
      exact ⟨"Magnitude must be between -50 and 50.", by simp [ht, he, hm]⟩
    · have hm : ¬ (0 ≤ m ∧ m ≤ 100) := by
        simpa [magnitudeInRange, he] using h
      exact ⟨"Magnitude must be between 0 and 100.", by simp [ht, he, hm]⟩

/-- A successful `Tag.voteChecked` carries the resolved attribute id. -/
lemma tagVoteChecked_attr (tag : Tag) (opts : Options) (L R : Item) (m : Int)
    (attr : Option AttrArg) (p : VotePayload)
    (h : Tag.voteChecked tag opts L m R attr = .ok p) :
    p.attribute_ = attributeId attr := by
  unfold Tag.voteChecked at h
  split_ifs at h <;> simp_all <;> exact h.symm ▸ rfl

/-- A successful `Sorter.voteChecked` carries the resolved attribute id. -/
lemma sorterVoteChecked_attr (opts : Options) (L R : Item) (m : Int)
    (attr : Option AttrArg) (p : VotePayload)
    (h : Sorter.voteChecked opts L m R attr = .ok p) :
    p.attribute_ = attributeId attr := by
  unfold Sorter.voteChecked at h
  split_ifs at h <;> simp_all <;> exact h.symm ▸ rfl

/-! ## Claim theorems -/

/-- Claim C1: for every integer magnitude in range for the active scale,
converting it from client scale to backend scale and back returns the original
value; in "equal" mode the backend value is client + 50 and the inverse
subtracts 50, in "positive" mode both conversions are the identity. -/
theorem claim_C1_magnitude_roundtrip (opts : Options) (m : Int)
    (h : magnitudeInRange opts m = true) :
    Sorter.convertMagnitudeFromBackend opts (Sorter.convertMagnitudeToBackend opts m) = m ∧
    (opts.vote_magnitude = OptVal.str "equal" →
      Sorter.convertMagnitudeToBackend opts m = m + 50 ∧
      Sorter.convertMagnitudeFromBackend opts m = m - 50) ∧
    (opts.vote_magnitude = OptVal.str "positive" →
      Sorter.convertMagnitudeToBackend opts m = m ∧
      Sorter.convertMagnitudeFromBackend opts m = m) := by
  refine ⟨?_, ?_, ?_⟩
  · by_cases he : opts.vote_magnitude = OptVal.str "equal" <;>
      simp [Sorter.convertMagnitudeFromBackend, Sorter.convertMagnitudeToBackend, he] <;>
      omega
  · intro he
    simp [Sorter.convertMagnitudeFromBackend, Sorter.convertMagnitudeToBackend, he]
  · intro hp
    have he : ¬ opts.vote_magnitude = OptVal.str "equal" := by
      rw [hp]; intro hc; exact absurd (OptVal.str.inj hc) (by decide)
    simp [Sorter.convertMagnitudeFromBackend, Sorter.convertMagnitudeToBackend, he]

theorem claim_C1_witness :
    magnitudeInRange defaultOptions 7 = true ∧
    Sorter.convertMagnitudeFromBackend defaultOptions
      (Sorter.convertMagnitudeToBackend defaultOptions 7) = 7 :=
  ⟨by decide, (claim_C1_magnitude_roundtrip defaultOptions 7 (by decide)).1⟩

/-- Claim C2: for every magnitude out of range for the active scale, recording
a vote — through `Tag.vote` or `Sorter.vote`, in either argument order —
raises a ValueError before any HTTP request is issued (the result is an error,
so no request payload is ever produced), for every option set, in particular
regardless of the quiet option. -/
theorem claim_C2_out_of_range_raises (opts : Options) (tag : Tag) (L R : Item)
    (m : Int) (attr : Option AttrArg) (h : magnitudeInRange opts m = false) :
    (∃ msg, Tag.vote tag opts L (.int m) (.item R) attr = .error (.valueError msg)) ∧
    (∃ msg, Tag.vote tag opts L (.item R) (.int m) attr = .error (.valueError msg)) ∧
    (∃ msg, Sorter.vote opts L (.int m) (.item R) attr = .error (.valueError msg)) ∧
    (∃ msg, Sorter.vote opts L (.item R) (.int m) attr = .error (.valueError msg)) :=
  ⟨tagVoteChecked_out_of_range tag opts L R m attr h,
   tagVoteChecked_out_of_range tag opts L R m attr h,
   sorterVoteChecked_out_of_range opts L R m attr h,
   sorterVoteChecked_out_of_range opts L R m attr h⟩

theorem claim_C2_witness :
    magnitudeInRange defaultOptions 200 = false ∧
    (∃ msg, Tag.vote ⟨1⟩ defaultOptions ⟨10, "L", 1⟩ (.int 200) (.item ⟨11, "R", 1⟩) none
      = .error (.valueError msg)) :=
  ⟨by decide,
   (claim_C2_out_of_range_raises defaultOptions ⟨1⟩ ⟨10, "L", 1⟩ ⟨11, "R", 1⟩ 200 none
     (by decide)).1⟩

/-- Claim C3: on a non-2xx response, `_request` logs the error and returns the
empty dict instead of raising when the quiet option is truthy, and raises an
error carrying the status code and the message describing status and body when
it is not. -/
theorem claim_C3_quiet_mode (opts : Options) (method url : String)
    (resp : HttpResponse)
    (h : ¬ (200 ≤ resp.status_code ∧ resp.status_code < 300)) :
    ((opts.quiet).truthy = true →
      Sorter.request opts method url resp
        = (.ok .emptyDict, [⟨.error, requestErrorMsg method url resp⟩])) ∧
    ((opts.quiet).truthy = false →
      Sorter.request opts method url resp
        = (.error (.httpStatusError resp.status_code (requestErrorMsg method url resp)),
           [⟨.error, requestErrorMsg method url resp⟩])) := by
  constructor <;> intro hq <;> simp [Sorter.request, h, hq]

theorem claim_C3_witness :
    Sorter.request { defaultOptions with quiet := OptVal.bool true } "GET" "/api/tag"
        ⟨500, "server error"⟩
      = (.ok .emptyDict,
         [⟨.error, requestErrorMsg "GET" "/api/tag" ⟨500, "server error"⟩⟩]) ∧
    Sorter.request defaultOptions "GET" "/api/tag" ⟨500, "server error"⟩
      = (.error (.httpStatusError 500
           (requestErrorMsg "GET" "/api/tag" ⟨500, "server error"⟩)),
         [⟨.error, requestErrorMsg "GET" "/api/tag" ⟨500, "server error"⟩⟩]) :=
  ⟨(claim_C3_quiet_mode { defaultOptions with quiet := OptVal.bool true } "GET" "/api/tag"
      ⟨500, "server error"⟩ (by decide)).1 (by decide),
   (claim_C3_quiet_mode defaultOptions "GET" "/api/tag"
      ⟨500, "server error"⟩ (by decide)).2 (by decide)⟩

/-- Claim C5: the two vote argument orders are equivalent — with an in-range
magnitude, `vote(L, m, R, a)` and `vote(L, R, m, a)` build the same request
payload and the same resulting Vote (for both `Tag.vote` and `Sorter.vote`),
and any other combination of argument types raises a TypeError. -/
theorem claim_C5_argument_orders (opts : Options) (tag : Tag) (L R : Item)
    (m : Int) (attr : Option AttrArg) (h : magnitudeInRange opts m = true) :
    Tag.vote tag opts L (.int m) (.item R) attr
      = Tag.vote tag opts L (.item R) (.int m) attr ∧
    Sorter.vote opts L (.int m) (.item R) attr
      = Sorter.vote opts L (.item R) (.int m) attr ∧
    (∀ respond, Tag.voteResult tag opts respond L (.int m) (.item R) attr
      = Tag.voteResult tag opts respond L (.item R) (.int m) attr) ∧
    (∀ m2 : Int, ∃ msg,
      Tag.vote tag opts L (.int m) (.int m2) attr = .error (.typeError msg)) ∧
    (∀ R2 : Item, ∃ msg,
      Tag.vote tag opts L (.item R) (.item R2) attr = .error (.typeError msg)) ∧
    (∀ m2 : Int, ∃ msg,
      Sorter.vote opts L (.int m) (.int m2) attr = .error (.typeError msg)) ∧
    (∀ R2 : Item, ∃ msg,
      Sorter.vote opts L (.item R) (.item R2) attr = .error (.typeError msg)) :=
  ⟨rfl, rfl, fun _ => rfl, fun _ => ⟨_, rfl⟩, fun _ => ⟨_, rfl⟩,
   fun _ => ⟨_, rfl⟩, fun _ => ⟨_, rfl⟩⟩

theorem claim_C5_witness :
    magnitudeInRange defaultOptions 5 = true ∧
    Tag.vote ⟨1⟩ defaultOptions ⟨10, "L", 1⟩ (.int 5) (.item ⟨11, "R", 1⟩) none
      = Tag.vote ⟨1⟩ defaultOptions ⟨10, "L", 1⟩ (.item ⟨11, "R", 1⟩) (.int 5) none :=
  ⟨by decide,
   (claim_C5_argument_orders defaultOptions ⟨1⟩ ⟨10, "L", 1⟩ ⟨11, "R", 1⟩ 5 none
     (by decide)).1⟩

/-- Claim C6: a vote recorded without an explicit attribute argument is sent
with attribute id 0 in the request payload; an Attribute object contributes
its id and an int is used directly. -/
theorem claim_C6_attribute_default (opts : Options) (tag : Tag) (L : Item)
    (arg2 arg3 : MagOrItem) (attr : Option AttrArg) :
    (∀ p, Tag.vote tag opts L arg2 arg3 attr = .ok p →
      p.attribute_ = attributeId attr) ∧
    (∀ p, Sorter.vote opts L arg2 arg3 attr = .ok p →
      p.attribute_ = attributeId attr) ∧
    attributeId none = 0 ∧
    (∀ a : Attribute, attributeId (some (AttrArg.attr a)) = a.id) ∧
    (∀ i : Int, attributeId (some (AttrArg.int i)) = i) := by
  refine ⟨?_, ?_, rfl, fun _ => rfl, fun _ => rfl⟩
  · intro p h
    cases arg2 <;> cases arg3 <;> simp [Tag.vote] at h <;>
      exact tagVoteChecked_attr _ _ _ _ _ _ _ h
  · intro p h
    cases arg2 <;> cases arg3 <;> simp [Sorter.vote] at h <;>
      exact sorterVoteChecked_attr _ _ _ _ _ _ h

theorem claim_C6_witness :
    ({ left_item_id := 10, right_item_id := 11, magnitude := 55, tag_id := 1,
       attribute_ := 0 } : VotePayload).attribute_ = attributeId none :=
  (claim_C6_attribute_default defaultOptions ⟨1⟩ ⟨10, "L", 1⟩ (.int 5)
    (.item ⟨11, "R", 1⟩) none).1 _ (by rfl)

/-- Claim C7: `Tag.vote` validates that both items belong to the tag — when
the left or the right item carries a different tag id, it raises a ValueError
before any HTTP request is issued, in either argument order. -/
theorem claim_C7_tag_membership (opts : Options) (tag : Tag) (L R : Item)
    (m : Int) (attr : Option AttrArg)
    (h : L.tagId ≠ tag.id ∨ R.tagId ≠ tag.id) :
    Tag.vote tag opts L (.int m) (.item R) attr
      = .error (.valueError "Both items must belong to this tag.") ∧
    Tag.vote tag opts L (.item R) (.int m) attr
      = .error (.valueError "Both items must belong to this tag.") := by
  constructor <;> simp [Tag.vote, Tag.voteChecked, if_pos h]

theorem claim_C7_witness :
    ((⟨10, "L", 2⟩ : Item).tagId ≠ (⟨1⟩ : Tag).id ∨
      (⟨11, "R", 1⟩ : Item).tagId ≠ (⟨1⟩ : Tag).id) ∧
    Tag.vote ⟨1⟩ defaultOptions ⟨10, "L", 2⟩ (.int 5) (.item ⟨11, "R", 1⟩) none
      = .error (.valueError "Both items must belong to this tag.") :=
  ⟨by decide,
   (claim_C7_tag_membership defaultOptions ⟨1⟩ ⟨10, "L", 2⟩ ⟨11, "R", 1⟩ 5 none
     (by decide)).1⟩

/-- Claim C4: `Rankings.__init__` tolerates any number of items in the voting
pair — construction always succeeds, and a count other than 0 or 2 only adds a
warning log line — and `Rankings.pair` returns the two pair items in order
(first, second) when the snapshot holds exactly two, and raises a ValueError
when it holds none. -/
theorem claim_C4_rankings_pair (tag : Tag) (data : RankingsData) :
    (∃ r warns, Rankings.init tag data = .ok (r, warns) ∧
      warns = (if data.pair.length ≠ 2 ∧ data.pair.length ≠ 0 then
        [⟨.warning,
          "Expected 2 items in voting pair, got " ++ toString data.pair.length⟩]
      else [])) ∧
    (∀ a b, data.pair = [a, b] →
      ∀ r warns, Rankings.init tag data = .ok (r, warns) →
        r.pair = .ok (mkItem tag a, mkItem tag b)) ∧
    (data.pair = [] →
      ∀ r warns, Rankings.init tag data = .ok (r, warns) →
        r.pair = .error (.valueError "No voting pair available")) := by
  refine ⟨⟨_, _, rfl, by simp [Rankings.init]⟩, ?_, ?_⟩
  · intro a b hab r warns hinit
    simp only [Rankings.init, Except.ok.injEq, Prod.mk.injEq] at hinit
    obtain ⟨h1, _⟩ := hinit
    subst h1
    simp [Rankings.pair, hab]
  · intro hab r warns hinit
    simp only [Rankings.init, Except.ok.injEq, Prod.mk.injEq] at hinit
    obtain ⟨h1, _⟩ := hinit
    subst h1
    simp [Rankings.pair, hab]

theorem claim_C4_witness :
    (∃ r warns,
      Rankings.init ⟨1⟩ ⟨[], [], [], [⟨10, "a"⟩, ⟨11, "b"⟩]⟩ = .ok (r, warns) ∧
      warns = []) ∧
    (∀ r warns,
      Rankings.init ⟨1⟩ ⟨[], [], [], [⟨10, "a"⟩, ⟨11, "b"⟩]⟩ = .ok (r, warns) →
        r.pair = .ok (mkItem ⟨1⟩ ⟨10, "a"⟩, mkItem ⟨1⟩ ⟨11, "b"⟩)) ∧
    (∀ r warns,
      Rankings.init ⟨1⟩ ⟨[], [], [], []⟩ = .ok (r, warns) →
        r.pair = .error (.valueError "No voting pair available")) := by
  refine ⟨?_, ?_, ?_⟩
  · obtain ⟨r, warns, h1, h2⟩ :=
      (claim_C4_rankings_pair ⟨1⟩ ⟨[], [], [], [⟨10, "a"⟩, ⟨11, "b"⟩]⟩).1
    exact ⟨r, warns, h1, by simpa using h2⟩
  · exact (claim_C4_rankings_pair ⟨1⟩ ⟨[], [], [], [⟨10, "a"⟩, ⟨11, "b"⟩]⟩).2.1
      ⟨10, "a"⟩ ⟨11, "b"⟩ rfl
  · exact (claim_C4_rankings_pair ⟨1⟩ ⟨[], [], [], []⟩).2.2 rfl

/-- Every log line a successful run of the compatibility-check body emits has
level warning or debug. -/
lemma checkApiCompatibilityInner_levels (opts : Options) (cvs : List String)
    (health : HealthResult) (logs : List LogMsg)
    (h : Sorter.checkApiCompatibilityInner opts cvs health = .ok logs) :
    ∀ l ∈ logs, l.level = LogLevel.warning ∨ l.level = LogLevel.debug := by
  intro l hl
  cases health with
  | unreachable msg => simp [Sorter.checkApiCompatibilityInner] at h
  | response status body =>
    by_cases hs : status = 200
    · cases body with
      | error m => simp [Sorter.checkApiCompatibilityInner, hs] at h
      | ok versionField =>
        cases versionField with
        | none =>
          simp [Sorter.checkApiCompatibilityInner, hs] at h
          subst h
          simp at hl
        | some apiVersion =>
          by_cases ha : apiVersion = ""
          · simp [Sorter.checkApiCompatibilityInner, hs, ha] at h
            subst h
            simp at hl
          · simp only [Sorter.checkApiCompatibilityInner, hs, ha, if_true,
              if_false] at h
            split at h <;>
              [skip; split at h] <;>
              · simp only [Except.ok.injEq] at h
                subst h
                simp only [List.mem_singleton] at hl
                subst hl
                by_cases hsw : (opts.compatibility_warnings).truthy = true <;>
                  simp [hsw]
    · simp [Sorter.checkApiCompatibilityInner, hs] at h
      subst h
      simp at hl

/-- Claim C8: the API-version compatibility check is advisory and non-fatal —
whatever the health-endpoint outcome (unreachable host, non-200 status,
missing or malformed version, incompatible version), any exception inside the
check is caught and downgraded to a debug log line, and every log line the
check produces has level warning or debug. -/
theorem claim_C8_compat_check_nonfatal (opts : Options)
    (compatibleVersions : List String) (health : HealthResult) :
    (opts.compatibility_warnings ≠ OptVal.bool false →
      ∀ e, Sorter.checkApiCompatibilityInner opts compatibleVersions health
          = .error e →
        Sorter.checkApiCompatibility opts compatibleVersions health
          = [⟨.debug, "Failed to check API version compatibility: " ++ e.message⟩]) ∧
    (∀ l ∈ Sorter.checkApiCompatibility opts compatibleVersions health,
      l.level = LogLevel.warning ∨ l.level = LogLevel.debug) := by
  constructor
  · intro hw e he
    simp [Sorter.checkApiCompatibility, hw, he]
  · intro l hl
    unfold Sorter.checkApiCompatibility at hl
    by_cases hw : opts.compatibility_warnings = OptVal.bool false
    · rw [if_pos hw] at hl
      simp at hl
      simp [hl]
    · rw [if_neg hw] at hl
      cases hi : Sorter.checkApiCompatibilityInner opts compatibleVersions health with
      | ok logs =>
          rw [hi] at hl
          exact checkApiCompatibilityInner_levels opts compatibleVersions health logs hi l hl
      | error e =>
          rw [hi] at hl
          simp at hl
          simp [hl]

theorem claim_C8_witness :
    Sorter.checkApiCompatibility defaultOptions ["2"]
        (.unreachable "connection refused")
      = [⟨.debug,
          "Failed to check API version compatibility: connection refused"⟩] ∧
    (∀ l ∈ Sorter.checkApiCompatibility defaultOptions ["2"]
        (.response 200 (.ok (some "3.0.0"))),
      l.level = LogLevel.warning ∨ l.level = LogLevel.debug) :=
  ⟨(claim_C8_compat_check_nonfatal defaultOptions ["2"]
      (.unreachable "connection refused")).1 (by decide) _ rfl,
   (claim_C8_compat_check_nonfatal defaultOptions ["2"]
      (.response 200 (.ok (some "3.0.0")))).2⟩

/-- Reading one of the five option keys (none for any other key). -/
def getOption (o : Options) (k : String) : Option OptVal :=
  if k = "vote_magnitude" then some o.vote_magnitude
  else if k = "verbose" then some o.verbose
  else if k = "quiet" then some o.quiet
  else if k = "compatibility_warnings" then some o.compatibility_warnings
  else if k = "debug_http_full" then some o.debug_http_full
  else none

/-- Assigning an unknown key leaves the option set unchanged. -/
lemma setOption_unknown (o : Options) (k : String) (v : OptVal)
    (h : k ∉ knownOptionKeys) : setOption o k v = o := by
  simp only [knownOptionKeys, List.mem_cons, List.mem_singleton, not_or] at h
  obtain ⟨h1, h2, h3, h4, h5⟩ := h
  simp [setOption, h1, h2, h3, h4, h5]

/-- Assigning one key does not change the value read at a different key. -/
lemma getOption_setOption_ne (o : Options) (k k' : String) (v : OptVal)
    (h : k' ≠ k) : getOption (setOption o k' v) k = getOption o k := by
  unfold setOption
  split_ifs <;> (unfold getOption; split_ifs <;> simp_all)

/-- The update fold of `Sorter.options` ignores unknown keys. -/
lemma optionsFold_filter (kwargs : List (String × OptVal)) (o : Options) :
    kwargs.foldl (fun acc kv => setOption acc kv.1 kv.2) o
      = (kwargs.filter fun kv => decide (kv.1 ∈ knownOptionKeys)).foldl
          (fun acc kv => setOption acc kv.1 kv.2) o := by
  induction kwargs generalizing o with
  | nil => rfl
  | cons kv rest ih =>
      rw [List.foldl_cons]
      by_cases hk : kv.1 ∈ knownOptionKeys
      · rw [List.filter_cons, if_pos (by simp [hk]), List.foldl_cons]
        exact ih _
      · rw [List.filter_cons, if_neg (by simp [hk]), setOption_unknown _ _ _ hk]
        exact ih _

/-- A key named by no keyword argument keeps its previous value through the
update fold. -/
lemma optionsFold_getOption (kwargs : List (String × OptVal)) (o : Options)
    (k : String) (h : ∀ kv ∈ kwargs, kv.1 ≠ k) :
    getOption (kwargs.foldl (fun acc kv => setOption acc kv.1 kv.2) o) k
      = getOption o k := by
  induction kwargs generalizing o with
  | nil => rfl
  | cons kv rest ih =>
      rw [List.foldl_cons,
        ih _ fun p hp => h p (List.mem_cons_of_mem kv hp),
        getOption_setOption_ne o k kv.1 kv.2 (h kv (List.mem_cons_self kv rest))]

/-- Claim C9: `Sorter.options` updates only keys that exist in the option set
— keyword arguments with a key other than the five known options are silently
ignored, every option not named in the call keeps its previous value, and the
full current option set is what the call returns. -/
theorem claim_C9_options_frame (o : Options) (kwargs : List (String × OptVal)) :
    (Sorter.optionsCall o kwargs).2 = (Sorter.optionsCall o kwargs).1 ∧
    Sorter.optionsCall o kwargs
      = Sorter.optionsCall o
          (kwargs.filter fun kv => decide (kv.1 ∈ knownOptionKeys)) ∧
    (∀ k, k ∈ knownOptionKeys → (∀ kv ∈ kwargs, kv.1 ≠ k) →
      getOption (Sorter.optionsCall o kwargs).1 k = getOption o k) := by
  refine ⟨rfl, ?_, ?_⟩
  · simp only [Sorter.optionsCall]
    rw [optionsFold_filter]
  · intro k _ hkv
    exact optionsFold_getOption kwargs o k hkv

theorem claim_C9_witness :
    "quiet" ∈ knownOptionKeys ∧
    getOption (Sorter.optionsCall defaultOptions
        [("bogus", OptVal.int 1), ("verbose", OptVal.bool true)]).1 "quiet"
      = getOption defaultOptions "quiet" :=
  ⟨by decide,
   (claim_C9_options_frame defaultOptions
      [("bogus", OptVal.int 1), ("verbose", OptVal.bool true)]).2.2 "quiet"
      (by decide) (by decide)⟩

/-- The keys after an upsert: unchanged when the key was present, the key
appended otherwise. -/
lemma upsert_map_fst (l : List (Int × Item)) (k : Int) (v : Item) :
    (upsert l k v).map Prod.fst =
      if k ∈ l.map Prod.fst then l.map Prod.fst else l.map Prod.fst ++ [k] := by
  induction l with
  | nil => simp [upsert]
  | cons p rest ih =>
      obtain ⟨k', v'⟩ := p
      by_cases hk : k' = k
      · subst hk
        simp [upsert]
      · simp only [upsert, if_neg hk, List.map_cons]
        rw [ih]
        by_cases hmem : k ∈ rest.map Prod.fst
        · rw [if_pos hmem, if_pos (List.mem_cons_of_mem k' hmem)]
        · rw [if_neg hmem,
            if_neg (fun hc => Or.elim (List.mem_cons.mp hc)
              (fun h1 => hk h1.symm) hmem),
            List.cons_append]

/-- Every value after an upsert is an old value or the inserted one. -/
lemma upsert_snd_mem (l : List (Int × Item)) (k : Int) (v : Item) (x : Item)
    (hx : x ∈ (upsert l k v).map Prod.snd) :
    x ∈ l.map Prod.snd ∨ x = v := by
  induction l with
  | nil =>
      simp only [upsert, List.map_cons, List.map_nil, List.mem_singleton] at hx
      exact Or.inr hx
  | cons p rest ih =>
      obtain ⟨k', v'⟩ := p
      simp only [upsert] at hx
      by_cases hk : k' = k
      · rw [if_pos hk, List.map_cons] at hx
        rcases List.mem_cons.mp hx with hx | hx
        · exact Or.inr hx
        · exact Or.inl (List.mem_cons_of_mem v' hx)
      · rw [if_neg hk, List.map_cons] at hx
        rcases List.mem_cons.mp hx with hx | hx
        · exact Or.inl (by rw [hx]; exact List.mem_cons_self _ _)
        · rcases ih hx with h1 | h1
          · exact Or.inl (List.mem_cons_of_mem v' h1)
          · exact Or.inr h1

/-- Upsert preserves the invariant that every stored pair maps an item id to
its item. -/
lemma upsert_pairs_inv (l : List (Int × Item)) (k : Int) (v : Item)
    (hv : v.id = k) (h : ∀ p ∈ l, (Prod.snd p).id = Prod.fst p) :
    ∀ p ∈ upsert l k v, (Prod.snd p).id = Prod.fst p := by
  induction l with
  | nil =>
      intro p hp
      simp only [upsert, List.mem_singleton] at hp
      subst hp
      simpa using hv
  | cons q rest ih =>
      obtain ⟨k', v'⟩ := q
      intro p hp
      simp only [upsert] at hp
      by_cases hk : k' = k
      · rw [if_pos hk] at hp
        rcases List.mem_cons.mp hp with hp | hp
        · subst hp
          simpa using hv
        · exact h p (List.mem_cons_of_mem _ hp)
      · rw [if_neg hk] at hp
        rcases List.mem_cons.mp hp with hp | hp
        · subst hp
          exact h (k', v') (List.mem_cons_self _ _)
        · exact ih (fun q hq => h q (List.mem_cons_of_mem _ hq)) p hp

/-- The dedup fold keeps the keys duplicate-free. -/
lemma foldl_upsert_nodup (items : List Item) (acc : List (Int × Item))
    (h : (acc.map Prod.fst).Nodup) :
    ((items.foldl (fun a it => upsert a it.id it) acc).map Prod.fst).Nodup := by
  induction items generalizing acc with
  | nil => simpa using h
  | cons it rest ih =>
      rw [List.foldl_cons]
      apply ih
      rw [upsert_map_fst]
      by_cases hmem : it.id ∈ acc.map Prod.fst
      · rw [if_pos hmem]
        exact h
      · rw [if_neg hmem]
        simp [List.nodup_append, h, hmem]

/-- Every value produced by the dedup fold comes from the accumulator or the
input list. -/
lemma foldl_upsert_snd_mem (items : List Item) (acc : List (Int × Item))
    (x : Item)
    (hx : x ∈ (items.foldl (fun a it => upsert a it.id it) acc).map Prod.snd) :
    x ∈ acc.map Prod.snd ∨ x ∈ items := by
  induction items generalizing acc with
  | nil => exact Or.inl (by simpa using hx)
  | cons it rest ih =>
      rw [List.foldl_cons] at hx
      rcases ih (upsert acc it.id it) hx with h1 | h1
      · rcases upsert_snd_mem acc it.id it x h1 with h2 | h2
        · exact Or.inl h2
        · exact Or.inr (by simp [h2])
      · exact Or.inr (List.mem_cons_of_mem _ h1)

/-- The dedup fold preserves the key-is-id invariant. -/
lemma foldl_upsert_inv (items : List Item) (acc : List (Int × Item))
    (h : ∀ p ∈ acc, (Prod.snd p).id = Prod.fst p) :
    ∀ p ∈ items.foldl (fun a it => upsert a it.id it) acc,
      (Prod.snd p).id = Prod.fst p := by
  induction items generalizing acc with
  | nil => simpa using h
  | cons it rest ih =>
      rw [List.foldl_cons]
      exact ih _ (upsert_pairs_inv acc it.id it rfl h)

/-- A key present in the accumulator survives the dedup fold. -/
lemma foldl_upsert_key_mono (items : List Item) (acc : List (Int × Item))
    (k : Int) (h : k ∈ acc.map Prod.fst) :
    k ∈ (items.foldl (fun a it => upsert a it.id it) acc).map Prod.fst := by
  induction items generalizing acc with
  | nil => simpa using h
  | cons it rest ih =>
      rw [List.foldl_cons]
      apply ih
      rw [upsert_map_fst]
      by_cases hmem : it.id ∈ acc.map Prod.fst
      · rw [if_pos hmem]
        exact h
      · rw [if_neg hmem]
        exact List.mem_append_left _ h

/-- The id of every input item appears among the keys after the dedup fold. -/
lemma foldl_upsert_key_of_mem (items : List Item) (acc : List (Int × Item))
    (it : Item) (h : it ∈ items) :
    it.id ∈ (items.foldl (fun a x => upsert a x.id x) acc).map Prod.fst := by
  induction items generalizing acc with
  | nil => simp at h
  | cons hd rest ih =>
      rw [List.foldl_cons]
      rcases List.mem_cons.mp h with h1 | h1
      · subst h1
        apply foldl_upsert_key_mono
        rw [upsert_map_fst]
        by_cases hmem : it.id ∈ acc.map Prod.fst
        · rw [if_pos hmem]
          exact hmem
        · rw [if_neg hmem]
          simp
      · exact ih _ h1

/-- Every key after the dedup fold comes from the accumulator or is the id of
an input item. -/
lemma foldl_upsert_fst_subset (items : List Item) (acc : List (Int × Item))
    (k : Int)
    (hk : k ∈ (items.foldl (fun a it => upsert a it.id it) acc).map Prod.fst) :
    k ∈ acc.map Prod.fst ∨ k ∈ items.map Item.id := by
  induction items generalizing acc with
  | nil => exact Or.inl (by simpa using hk)
  | cons it rest ih =>
      rw [List.foldl_cons] at hk
      rcases ih (upsert acc it.id it) hk with h1 | h1
      · rw [upsert_map_fst] at h1
        by_cases hmem : it.id ∈ acc.map Prod.fst
        · rw [if_pos hmem] at h1
          exact Or.inl h1
        · rw [if_neg hmem] at h1
          rcases List.mem_append.mp h1 with h2 | h2
          · exact Or.inl h2
          · simp only [List.mem_singleton] at h2
            subst h2
            exact Or.inr (by simp)
      · exact Or.inr (by simp [h1])

/-- The ids of the deduplicated items are exactly the keys of the fold. -/
lemma dedupById_ids (items : List Item) :
    (dedupById items).map Item.id
      = (items.foldl (fun a it => upsert a it.id it) []).map Prod.fst := by
  unfold dedupById
  rw [List.map_map]
  exact List.map_congr_left fun p hp => foldl_upsert_inv items [] (by simp) p hp

/-- Claim C10: `Tag.item` with title=None returns the concatenation of the
snapshot's sorted and unsorted items deduplicated by item id — the result has
pairwise-distinct ids, draws every element from sorted ++ unsorted, covers
every id occurring there, and therefore excludes any skipped item whose id
does not also occur among the sorted or unsorted items. -/
theorem claim_C10_item_all (r : Rankings) :
    Tag.itemNone r = dedupById (r.sortedItems ++ r.unsortedItems) ∧
    ((Tag.itemNone r).map Item.id).Nodup ∧
    (∀ it ∈ Tag.itemNone r, it ∈ r.sortedItems ++ r.unsortedItems) ∧
    (∀ it ∈ r.sortedItems ++ r.unsortedItems,
      it.id ∈ (Tag.itemNone r).map Item.id) ∧
    (∀ s ∈ r.skippedItems,
      s.id ∉ (r.sortedItems ++ r.unsortedItems).map Item.id →
        s.id ∉ (Tag.itemNone r).map Item.id) := by
  refine ⟨rfl, ?_, ?_, ?_, ?_⟩
  · rw [Tag.itemNone, dedupById_ids]
    exact foldl_upsert_nodup _ [] (by simp)
  · intro it hit
    have hmem := foldl_upsert_snd_mem (r.sortedItems ++ r.unsortedItems) [] it
      (by simpa [Tag.itemNone, dedupById] using hit)
    rcases hmem with h | h
    · simp at h
    · exact h
  · intro it hit
    rw [Tag.itemNone, dedupById_ids]
    exact foldl_upsert_key_of_mem _ [] it hit
  · intro s _ hnot
    rw [Tag.itemNone, dedupById_ids]
    intro hk
    rcases foldl_upsert_fst_subset _ [] s.id hk with h | h
    · simp at h
    · exact hnot h

/-- A concrete rankings snapshot: item id 2 occurs both sorted and unsorted,
item id 9 only occurs skipped. -/
def rankingsExample : Rankings :=
  { sortedItems := [⟨1, "a", 7⟩, ⟨2, "b", 7⟩]
    unsortedItems := [⟨2, "bb", 7⟩, ⟨3, "c", 7⟩]
    skippedItems := [⟨9, "s", 7⟩]
    pairItems := [] }

theorem claim_C10_witness :
    ((Tag.itemNone rankingsExample).map Item.id).Nodup ∧
    (∀ it ∈ Tag.itemNone rankingsExample,
      it ∈ rankingsExample.sortedItems ++ rankingsExample.unsortedItems) ∧
    (9 : Int) ∉ (Tag.itemNone rankingsExample).map Item.id := by
  obtain ⟨-, h2, h3, -, h5⟩ := claim_C10_item_all rankingsExample
  exact ⟨h2, h3, h5 ⟨9, "s", 7⟩ (by decide) (by decide)⟩

end Sorterpy
